import Mathlib

/-!
# A shallow embedding of the Needham-Schroeder implementation (needham.h)

The repository ships the public header `src/needham.h` of a symmetric-key
Needham-Schroeder implementation.  The header defines the field-length
constants, the protocol state and error enumerations, the callback handler
records for the three roles (server, client, daemon), the daemon's peer table
entry and context structures, and the three entry points `ns_server`,
`ns_daemon` and `ns_get_key`.  The message-processing code itself
(`needham.c`) is not part of the repository, so the per-message behaviour of
the three roles is modelled from the specification, while all state shapes,
numeric codes and lengths are taken from the header.

16-byte protocol fields (identities, keys, nonces) are modelled as natural
numbers at the protocol level; the byte-level framing (fixed 16-byte fields,
no null-termination) is modelled separately in the framing section.
-/

namespace Needham

/-- A 16-byte protocol field (identity, long-term key, session key or nonce),
modelled abstractly as a natural number. -/
abbrev Block := Nat

/-- A network address, used by the daemon as the key of its peer table
(`ns_abstract_address_t` in the header); modelled as an opaque value with
decidable equality. -/
abbrev Addr := Nat

/-- Modelled from the spec: the block cipher adapter (AES-128 semantics on
16-byte blocks) is an external vetted primitive; `needham.c` is not in the
repository.  It is modelled as a keyed permutation of blocks whose only
property used by the protocol is that decryption inverts encryption under
the same key. -/
def ns_encrypt (key b : Block) : Block := b + key

/-- Modelled from the spec: inverse of `ns_encrypt` under the same key. -/
def ns_decrypt (key b : Block) : Block := b - key

/-- Block-wise encryption of a multi-block plaintext (the protocol only
encrypts multiples of the block size). -/
def ns_encrypt_blocks (key : Block) (bs : List Block) : List Block :=
  bs.map (ns_encrypt key)

/-- Block-wise decryption of a multi-block ciphertext. -/
def ns_decrypt_blocks (key : Block) (bs : List Block) : List Block :=
  bs.map (ns_decrypt key)

/-- Protocol states, from the `ns_state_t` enumeration of the header
(values 0 through 6). -/
inductive ns_state_t
  | NS_STATE_INITIAL
  | NS_STATE_KEY_REQUEST
  | NS_STATE_KEY_RESPONSE
  | NS_STATE_COM_REQUEST
  | NS_STATE_COM_CHALLENGE
  | NS_STATE_COM_RESPONSE
  | NS_STATE_FINISHED
deriving DecidableEq

/-- Numeric value of each protocol state (the C enumeration starts at 0 and
counts up). -/
def ns_state_code : ns_state_t → Nat
  | .NS_STATE_INITIAL => 0
  | .NS_STATE_KEY_REQUEST => 1
  | .NS_STATE_KEY_RESPONSE => 2
  | .NS_STATE_COM_REQUEST => 3
  | .NS_STATE_COM_CHALLENGE => 4
  | .NS_STATE_COM_RESPONSE => 5
  | .NS_STATE_FINISHED => 6

/-- Protocol error codes, from the `ns_error_t` enumeration of the header
(values 17, 18, 19). -/
inductive ns_error_t
  | NS_ERR_UNKNOWN_ID
  | NS_ERR_REJECTED
  | NS_ERR_UNKNOWN
deriving DecidableEq

/-- Numeric value of each error code (the C enumeration starts at 17 and
counts up). -/
def ns_error_code : ns_error_t → Nat
  | .NS_ERR_UNKNOWN_ID => 17
  | .NS_ERR_REJECTED => 18
  | .NS_ERR_UNKNOWN => 19

/-- Wire messages of the protocol, one constructor per state code a datagram
can carry.  `finished` is the daemon's terminal acknowledgment and `errMsg`
an error reply carrying one of the three error codes. -/
inductive Msg
  | keyRequest (clientId partnerId nonce : Block)
  | keyResponse (payload : List Block)
  | comRequest (ticket : List Block)
  | comChallenge (c : Block)
  | comResponse (c : Block)
  | finished
  | errMsg (e : ns_error_t)
deriving DecidableEq

/-! ## Server role

Modelled from the spec: the server's message handling lives in the missing
`needham.c`; its callback interface (`ns_server_handler_t.get_key`, returning
-1 for identity-not-found) is in the header.  The key store is modelled as a
partial function from identities to long-term keys; the fresh session key of
a request is passed explicitly. -/

/-- Modelled from the spec: handling of one incoming datagram by the server.
On a `KEY_REQUEST`, look up both identities; if either lookup fails reply
with error `UNKNOWN_ID` and generate no session key.  Otherwise build the
ticket (session key and requester identity under the partner's long-term
key) and the response (nonce, partner identity, session key and ticket under
the client's long-term key).  Any other message is a protocol violation. -/
def ns_server_handle (get_key : Block → Option Block) (session_key : Block) :
    Msg → Msg
  | .keyRequest clientId partnerId nonce =>
    match get_key clientId, get_key partnerId with
    | some clientKey, some partnerKey =>
        .keyResponse (ns_encrypt_blocks clientKey
          ([nonce, partnerId, session_key] ++
            ns_encrypt_blocks partnerKey [session_key, clientId]))
    | _, _ => .errMsg .NS_ERR_UNKNOWN_ID
  | _ => .errMsg .NS_ERR_UNKNOWN

/-! ## Daemon role

State shapes are from the header: `ns_daemon_peer_t` holds the remote
address and the challenge nonce; `ns_daemon_context_t` holds the daemon's
long-term key `daemon_ns_key`, a single session-key slot `peer_key` and the
peer table `peers`.  Message handling is modelled from the spec, constrained
to these state shapes. -/

/-- One entry of the daemon's peer table, from `ns_daemon_peer_t` of the
header: the remote address (the hash key) and the challenge nonce issued to
that address.  The header's structure has no session-key or identity
field. -/
structure ns_daemon_peer_t where
  addr : Addr
  nonce : Block
deriving DecidableEq

/-- The daemon's context, from `ns_daemon_context_t` of the header: the
daemon's own long-term key, a single session-key slot `peer_key`
(`char peer_key[NS_KEY_LENGTH]`, not per-peer), and the peer table.
`peer_identity` is modelled from the spec: the daemon must retain the
requester identity between challenge and finalization to deliver it to
`store_key`; the header gives the daemon context no per-peer slot for it, so
it is a single field alongside `peer_key`. -/
structure ns_daemon_context_t where
  daemon_ns_key : Block
  peer_key : Block
  peer_identity : Block
  peers : List ns_daemon_peer_t
deriving DecidableEq

/-- Exact-key lookup in the daemon's peer table (uthash `HASH_FIND`). -/
def peers_find : List ns_daemon_peer_t → Addr → Option ns_daemon_peer_t
  | [], _ => none
  | p :: ps, a => if p.addr = a then some p else peers_find ps a

/-- Removal from the daemon's peer table (uthash `HASH_DEL`). -/
def peers_remove : List ns_daemon_peer_t → Addr → List ns_daemon_peer_t
  | [], _ => []
  | p :: ps, a => if p.addr = a then peers_remove ps a else p :: peers_remove ps a

/-- Insertion into the daemon's peer table, replacing any entry with the
same address. -/
def peers_add (ps : List ns_daemon_peer_t) (p : ns_daemon_peer_t) :
    List ns_daemon_peer_t :=
  p :: peers_remove ps p.addr

/-- Daemon startup state, from `ns_daemon(handler, port, key)`: the daemon
is given its own long-term key as stored at the server; the peer table
starts empty.  The handler callbacks are modelled by the explicit outputs of
the message-handling functions below. -/
def ns_daemon (_port : Nat) (key : Block) : ns_daemon_context_t :=
  { daemon_ns_key := key, peer_key := 0, peer_identity := 0, peers := [] }

/-- Modelled from the spec: daemon handling of a `COM_REQUEST` from address
`src` (`needham.c` is missing).  Decrypt the ticket with the daemon's own
long-term key; a ticket of the wrong shape is answered `REJECTED`.
Otherwise record the fresh challenge nonce `n2` for `src` in the peer table,
keep the recovered session key and requester identity in the context's
single slots, and send the challenge nonce encrypted under the session
key. -/
def ns_daemon_handle_com_request (ctx : ns_daemon_context_t) (src : Addr)
    (n2 : Block) (ticket : List Block) : ns_daemon_context_t × Msg :=
  match ns_decrypt_blocks ctx.daemon_ns_key ticket with
  | [session_key, requester_id] =>
      ({ ctx with
          peer_key := session_key,
          peer_identity := requester_id,
          peers := peers_add ctx.peers ⟨src, n2⟩ },
       .comChallenge (ns_encrypt session_key n2))
  | _ => (ctx, .errMsg .NS_ERR_REJECTED)

/-- Modelled from the spec: daemon handling of a `COM_RESPONSE` from address
`src`.  An unsolicited response (no peer record for `src`) is answered
`UNKNOWN_ID`.  Otherwise decrypt with the stored session key and compare
with the issued nonce decremented by one: on success remove the record,
acknowledge `FINISHED` and deliver the requester identity and session key to
`store_key` (the third component); on mismatch remove the record and answer
`REJECTED`. -/
def ns_daemon_handle_com_response (ctx : ns_daemon_context_t) (src : Addr)
    (c : Block) : ns_daemon_context_t × Msg × Option (Block × Block) :=
  match peers_find ctx.peers src with
  | none => (ctx, .errMsg .NS_ERR_UNKNOWN_ID, none)
  | some p =>
      if ns_decrypt ctx.peer_key c = p.nonce - 1 then
        ({ ctx with peers := peers_remove ctx.peers src },
         .finished, some (ctx.peer_identity, ctx.peer_key))
      else
        ({ ctx with peers := peers_remove ctx.peers src },
         .errMsg .NS_ERR_REJECTED, none)

/-! ## Client role

Modelled from the spec: the client's linear handshake lives in the missing
`needham.c`; its callback interface (`ns_client_handler_t` with `store_key`,
`get_key` and `result`) and the signature of `ns_get_key` are in the
header.  The callback invocations are recorded explicitly in the run
record. -/

/-- Modelled from the spec: client processing of the reply to its
`KEY_REQUEST`.  Decrypt a `KEY_RESPONSE` with the client's own long-term key
and check that the embedded nonce equals the nonce `n1` the client sent; on
mismatch fail with `UNKNOWN`.  On success extract the partner identity, the
session key and the opaque ticket.  An error reply propagates its code; any
other message is out of state and fails with `UNKNOWN`. -/
def ns_client_handle_key_response (client_ns_key n1 : Block) :
    Msg → Except ns_error_t (Block × Block × List Block)
  | .keyResponse payload =>
    match ns_decrypt_blocks client_ns_key payload with
    | n :: partnerId :: session_key :: ticket =>
        if n = n1 then .ok (partnerId, session_key, ticket)
        else .error .NS_ERR_UNKNOWN
    | _ => .error .NS_ERR_UNKNOWN
  | .errMsg e => .error e
  | _ => .error .NS_ERR_UNKNOWN

/-- Modelled from the spec: client processing of the daemon's challenge.
Decrypt a `COM_CHALLENGE` with the session key to obtain the daemon's nonce,
decrement it by one and return it re-encrypted under the session key (the
block of the client's `COM_RESPONSE`).  An error reply propagates its code;
any other message is out of state and fails with `UNKNOWN`. -/
def ns_client_handle_com_challenge (session_key : Block) :
    Msg → Except ns_error_t Block
  | .comChallenge c =>
      .ok (ns_encrypt session_key (ns_decrypt session_key c - 1))
  | .errMsg e => .error e
  | _ => .error .NS_ERR_UNKNOWN

/-- Modelled from the spec: client processing of the daemon's final
acknowledgment.  `FINISHED` completes the handshake; an error reply
propagates its code; any other message is out of state and fails with
`UNKNOWN`. -/
def ns_client_handle_final : Msg → Except ns_error_t Unit
  | .finished => .ok ()
  | .errMsg e => .error e
  | _ => .error .NS_ERR_UNKNOWN

/-- The observable outcome of one client handshake: the codes passed to the
`result` callback in order, the `(identity, key)` pairs passed to the
`store_key` callback in order, and the value `ns_get_key` returns to its
caller. -/
structure ClientRun where
  results : List Nat
  stored : List (Block × Block)
  ret : Nat
deriving DecidableEq

/-- Modelled from the spec: the client's full synchronous handshake.  The
client sends its `KEY_REQUEST` (with nonce `n1`), then processes the three
replies it receives in order: the server's reply `reply1`, the daemon's
challenge `reply2` and the daemon's final acknowledgment `reply3`.  Any
failure short-circuits to a terminal error; the `result` callback is invoked
once with the terminal code, which is also returned. -/
def ns_get_key_run (client_ns_key _client_id _partner_id n1 : Block)
    (reply1 reply2 reply3 : Msg) : ClientRun :=
  match ns_client_handle_key_response client_ns_key n1 reply1 with
  | .error e => ⟨[ns_error_code e], [], ns_error_code e⟩
  | .ok (partnerId, session_key, _ticket) =>
    match ns_client_handle_com_challenge session_key reply2 with
    | .error e =>
        ⟨[ns_error_code e], [(partnerId, session_key)], ns_error_code e⟩
    | .ok _response =>
      match ns_client_handle_final reply3 with
      | .error e =>
          ⟨[ns_error_code e], [(partnerId, session_key)], ns_error_code e⟩
      | .ok _ =>
          ⟨[ns_state_code .NS_STATE_FINISHED], [(partnerId, session_key)],
           ns_state_code .NS_STATE_FINISHED⟩

/-- Client entry point, mirroring
`ns_get_key(handler, server_address, partner_address, server_port,
client_port, partner_port, client_identity, partner_identity, key)` of the
header.  The handler callbacks are modelled by the `ClientRun` record of
`ns_get_key_run`; the addresses and ports belong to the transport layer and
do not influence the protocol computation.  The fresh nonce and the three
received datagrams are explicit inputs of the pure model.  Returns the
terminal state or error code. -/
def ns_get_key (_server_address _partner_address : String)
    (_server_port _client_port _partner_port : Nat)
    (client_identity partner_identity key : Block)
    (n1 : Block) (reply1 reply2 reply3 : Msg) : Nat :=
  (ns_get_key_run key client_identity partner_identity n1
    reply1 reply2 reply3).ret

/-- Server entry point, mirroring `ns_server(handler, port)` of the header:
the server is driven entirely by the key-lookup handler; per-request inputs
(the fresh session key and the datagram) are explicit in the pure model. -/
def ns_server (handler : Block → Option Block) (_port : Nat)
    (session_key : Block) (m : Msg) : Msg :=
  ns_server_handle handler session_key m

/-- Modelled from the spec: the complete handshake of one client against a
correct server and a correct daemon.  `get_key` is the server's key store,
`client_key` and `partner_key` the two long-term keys, `session_key` the
fresh key the server generates, `n1` the client's nonce and `n2` the
daemon's challenge nonce; the daemon is started with the partner's long-term
key.  Returns the client's run record, the daemon's final context and what
the daemon delivered to its `store_key` callback. -/
def full_handshake (get_key : Block → Option Block) (src : Addr) (port : Nat)
    (client_id partner_id client_key partner_key n1 session_key n2 : Block) :
    ClientRun × ns_daemon_context_t × Option (Block × Block) :=
  let reply1 := ns_server_handle get_key session_key
    (.keyRequest client_id partner_id n1)
  let ctx0 := ns_daemon port partner_key
  match ns_client_handle_key_response client_key n1 reply1 with
  | .error e => (⟨[ns_error_code e], [], ns_error_code e⟩, ctx0, none)
  | .ok (partnerId, sk, ticket) =>
    let step2 := ns_daemon_handle_com_request ctx0 src n2 ticket
    match ns_client_handle_com_challenge sk step2.2 with
    | .error e =>
        (⟨[ns_error_code e], [(partnerId, sk)], ns_error_code e⟩,
         step2.1, none)
    | .ok response =>
      let step3 := ns_daemon_handle_com_response step2.1 src response
      match ns_client_handle_final step3.2.1 with
      | .error e =>
          (⟨[ns_error_code e], [(partnerId, sk)], ns_error_code e⟩,
           step3.1, step3.2.2)
      | .ok _ =>
          (⟨[ns_state_code .NS_STATE_FINISHED], [(partnerId, sk)],
            ns_state_code .NS_STATE_FINISHED⟩,
           step3.1, step3.2.2)

/-! ## Byte-level framing

The header fixes the four field-length constants to 16 bytes and warns that
only multiples of 16 are supported.  The wire layout of the plaintext
`KEY_REQUEST` (state byte, client identity, partner identity, nonce, each
field a fixed 16-byte block) is modelled at the byte level: packing
concatenates the fields at fixed offsets and unpacking slices them back by
offset — no scanning for a terminating zero byte ever happens. -/

/-- `NS_KEY_LENGTH` of the header (length of the session key). -/
def NS_KEY_LENGTH : Nat := 16

/-- `NS_RIN_KEY_LENGTH` of the header (length of the AES key). -/
def NS_RIN_KEY_LENGTH : Nat := 16

/-- `NS_IDENTITY_LENGTH` of the header (length of identities). -/
def NS_IDENTITY_LENGTH : Nat := 16

/-- `NS_NONCE_LENGTH` of the header (length of nonces). -/
def NS_NONCE_LENGTH : Nat := 16

/-- A raw byte buffer. -/
abbrev Bytes := List Nat

/-- Modelled from the spec: byte-level packing of a `KEY_REQUEST` datagram —
one state byte followed by the three fixed 16-byte fields, concatenated at
fixed offsets. -/
def ns_pack_key_request (state : Nat) (clientId partnerId nonce : Bytes) :
    Bytes :=
  state :: (clientId ++ partnerId ++ nonce)

/-- Modelled from the spec: byte-level unpacking of a `KEY_REQUEST`
datagram.  The payload length must be exactly the sum of the three
fixed field lengths; each field is sliced out by fixed offset, never by
searching for a zero byte. -/
def ns_unpack_key_request (buf : Bytes) :
    Option (Nat × Bytes × Bytes × Bytes) :=
  match buf with
  | [] => none
  | state :: rest =>
    if rest.length = NS_IDENTITY_LENGTH + NS_IDENTITY_LENGTH + NS_NONCE_LENGTH
    then
      some (state,
        rest.take NS_IDENTITY_LENGTH,
        (rest.drop NS_IDENTITY_LENGTH).take NS_IDENTITY_LENGTH,
        ((rest.drop NS_IDENTITY_LENGTH).drop NS_IDENTITY_LENGTH).take
          NS_NONCE_LENGTH)
    else none

/-! ## Concrete instances used by witnesses and counterexamples -/

/-- A concrete daemon context: long-term key 5, pending session key 50 and
pending requester identity 1, one pending challenge for address 10 with
nonce 9. -/
def demo_daemon_ctx : ns_daemon_context_t :=
  { daemon_ns_key := 5, peer_key := 50, peer_identity := 1, peers := [⟨10, 9⟩] }

/-- A concrete server key store: identity 1 has long-term key 11, identity 2
has long-term key 12, nothing else is provisioned. -/
def demo_key_store : Block → Option Block :=
  fun i => if i = 1 then some 11 else if i = 2 then some 12 else none

/-- Daemon state (long-term key 5) after a `COM_REQUEST` from address 10
whose ticket carries session key 100 and requester identity 1, answered with
challenge nonce 7. -/
def demo_ctx_after_first_request : ns_daemon_context_t :=
  (ns_daemon_handle_com_request (ns_daemon 0 5) 10 7
    (ns_encrypt_blocks 5 [100, 1])).1

/-- The same daemon after a further `COM_REQUEST` from address 11 whose
ticket carries session key 200 and requester identity 2, answered with
challenge nonce 8. -/
def demo_ctx_after_second_request : ns_daemon_context_t :=
  (ns_daemon_handle_com_request demo_ctx_after_first_request 11 8
    (ns_encrypt_blocks 5 [200, 2])).1

/-! ## Basic lemmas about the embedding -/

/-- Decryption inverts encryption under the same key. -/
theorem ns_decrypt_ns_encrypt (k b : Block) :
    ns_decrypt k (ns_encrypt k b) = b := by
  simp [ns_decrypt, ns_encrypt]

/-- Block-wise decryption inverts block-wise encryption under the same
key. -/
theorem ns_decrypt_blocks_ns_encrypt_blocks (k : Block) (bs : List Block) :
    ns_decrypt_blocks k (ns_encrypt_blocks k bs) = bs := by
  simp [ns_decrypt_blocks, ns_encrypt_blocks, List.map_map, Function.comp_def,
    ns_decrypt, ns_encrypt]

/-- After removing an address from the peer table, lookup of that address
fails. -/
theorem peers_find_peers_remove_self (ps : List ns_daemon_peer_t) (a : Addr) :
    peers_find (peers_remove ps a) a = none := by
  induction ps with
  | nil => rfl
  | cons p ps ih =>
    by_cases h : p.addr = a <;> simp [peers_remove, peers_find, h, ih]

/-- Removing one address leaves lookups of other addresses unchanged. -/
theorem peers_find_peers_remove_ne (ps : List ns_daemon_peer_t) (a b : Addr)
    (hab : a ≠ b) : peers_find (peers_remove ps b) a = peers_find ps a := by
  induction ps with
  | nil => rfl
  | cons p ps ih =>
    by_cases h : p.addr = b
    · simp [peers_remove, peers_find, h, Ne.symm hab, ih]
    · by_cases h2 : p.addr = a <;>
        simp [peers_remove, peers_find, h, h2, hab, ih]

/-- Lookup of the address just inserted returns the inserted record. -/
theorem peers_find_peers_add_self (ps : List ns_daemon_peer_t)
    (p : ns_daemon_peer_t) : peers_find (peers_add ps p) p.addr = some p := by
  simp [peers_add, peers_find]

/-! ## The claims -/

/-- C10: the numeric values of the error codes (`NS_ERR_UNKNOWN_ID` = 17,
`NS_ERR_REJECTED` = 18, `NS_ERR_UNKNOWN` = 19) are disjoint from the numeric
values of the protocol states (`NS_STATE_INITIAL` = 0 through
`NS_STATE_FINISHED` = 6), so a single integer code unambiguously
distinguishes a protocol state from an error. -/
theorem ns_error_state_codes_disjoint :
    (ns_error_code .NS_ERR_UNKNOWN_ID = 17 ∧
     ns_error_code .NS_ERR_REJECTED = 18 ∧
     ns_error_code .NS_ERR_UNKNOWN = 19 ∧
     ns_state_code .NS_STATE_INITIAL = 0 ∧
     ns_state_code .NS_STATE_FINISHED = 6) ∧
    ∀ (e : ns_error_t) (s : ns_state_t), ns_error_code e ≠ ns_state_code s := by
  refine ⟨⟨rfl, rfl, rfl, rfl, rfl⟩, ?_⟩
  intro e s
  cases e <;> cases s <;> decide

/-- Witness for C10: the code of `NS_ERR_UNKNOWN_ID` differs from the code
of `NS_STATE_FINISHED`. -/
theorem ns_error_state_codes_disjoint_witness :
    ns_error_code .NS_ERR_UNKNOWN_ID ≠ ns_state_code .NS_STATE_FINISHED :=
  ns_error_state_codes_disjoint.2 .NS_ERR_UNKNOWN_ID .NS_STATE_FINISHED

/-- C8: the four field-length constants of the header all equal 16 bytes,
and the framing treats every field as a fixed-length block: packing a
`KEY_REQUEST` always yields a datagram of the fixed length 49 (one state
byte plus three 16-byte fields), and unpacking recovers every field byte
for byte at its fixed offset — in particular a zero byte inside a field is
preserved, never treated as a string terminator. -/
theorem ns_fixed_field_lengths (clientId partnerId nonce : Bytes)
    (h1 : clientId.length = NS_IDENTITY_LENGTH)
    (h2 : partnerId.length = NS_IDENTITY_LENGTH)
    (h3 : nonce.length = NS_NONCE_LENGTH) :
    (NS_KEY_LENGTH = 16 ∧ NS_RIN_KEY_LENGTH = 16 ∧
     NS_IDENTITY_LENGTH = 16 ∧ NS_NONCE_LENGTH = 16) ∧
    ∀ state : Nat,
      (ns_pack_key_request state clientId partnerId nonce).length = 49 ∧
      ns_unpack_key_request (ns_pack_key_request state clientId partnerId nonce)
        = some (state, clientId, partnerId, nonce) := by
  refine ⟨⟨rfl, rfl, rfl, rfl⟩, ?_⟩
  intro state
  have e1 : (clientId ++ (partnerId ++ nonce)).take NS_IDENTITY_LENGTH
      = clientId := List.take_left' h1
  have e2 : (clientId ++ (partnerId ++ nonce)).drop NS_IDENTITY_LENGTH
      = partnerId ++ nonce := List.drop_left' h1
  have e3 : (partnerId ++ nonce).take NS_IDENTITY_LENGTH = partnerId :=
    List.take_left' h2
  have e4 : (partnerId ++ nonce).drop NS_IDENTITY_LENGTH = nonce :=
    List.drop_left' h2
  have e5 : nonce.take NS_NONCE_LENGTH = nonce := by
    rw [← h3]; exact List.take_length nonce
  have hg : (clientId ++ partnerId ++ nonce).length
      = NS_IDENTITY_LENGTH + NS_IDENTITY_LENGTH + NS_NONCE_LENGTH := by
    simp [h1, h2, h3, NS_IDENTITY_LENGTH, NS_NONCE_LENGTH]
  constructor
  · simp [ns_pack_key_request, h1, h2, h3, NS_IDENTITY_LENGTH, NS_NONCE_LENGTH]
  · simp only [ns_pack_key_request, ns_unpack_key_request]
    rw [if_pos hg, List.append_assoc, e2, e3, e4, e5, e1]

/-- Witness for C8: concrete 16-byte fields, each with a zero byte in the
middle, survive a pack/unpack round trip intact. -/
theorem ns_fixed_field_lengths_witness :
    ([1, 2, 3, 4, 5, 6, 7, 0, 9, 10, 11, 12, 13, 14, 15, 16] : Bytes).length
        = NS_IDENTITY_LENGTH ∧
    ns_unpack_key_request (ns_pack_key_request 1
        [1, 2, 3, 4, 5, 6, 7, 0, 9, 10, 11, 12, 13, 14, 15, 16]
        [21, 22, 23, 0, 25, 26, 27, 28, 29, 30, 31, 32, 33, 34, 35, 36]
        [41, 42, 43, 44, 45, 46, 47, 48, 49, 50, 51, 0, 53, 54, 55, 56])
      = some (1,
        [1, 2, 3, 4, 5, 6, 7, 0, 9, 10, 11, 12, 13, 14, 15, 16],
        [21, 22, 23, 0, 25, 26, 27, 28, 29, 30, 31, 32, 33, 34, 35, 36],
        [41, 42, 43, 44, 45, 46, 47, 48, 49, 50, 51, 0, 53, 54, 55, 56]) :=
  ⟨by decide,
   ((ns_fixed_field_lengths
      [1, 2, 3, 4, 5, 6, 7, 0, 9, 10, 11, 12, 13, 14, 15, 16]
      [21, 22, 23, 0, 25, 26, 27, 28, 29, 30, 31, 32, 33, 34, 35, 36]
      [41, 42, 43, 44, 45, 46, 47, 48, 49, 50, 51, 0, 53, 54, 55, 56]
      (by decide) (by decide) (by decide)).2 1).2⟩

/-- C4: for every `KEY_REQUEST` naming an identity on which the server's
`get_key` callback reports not-found, the server replies with error code
`UNKNOWN_ID`, and this reply is the same whatever candidate fresh session
key is supplied — no session key is issued for the request. -/
theorem ns_server_unknown_id_no_key (get_key : Block → Option Block)
    (clientId partnerId n1 : Block)
    (h : get_key clientId = none ∨ get_key partnerId = none) :
    ∀ session_key : Block,
      ns_server_handle get_key session_key
        (.keyRequest clientId partnerId n1) = .errMsg .NS_ERR_UNKNOWN_ID := by
  intro session_key
  rcases h with h | h
  · simp [ns_server_handle, h]
  · cases hc : get_key clientId <;> simp [ns_server_handle, h, hc]

/-- Witness for C4: a server whose key store is empty answers a concrete
`KEY_REQUEST` with `UNKNOWN_ID`. -/
theorem ns_server_unknown_id_no_key_witness :
    ((fun _ : Block => (none : Option Block)) 1 = none ∨
     (fun _ : Block => (none : Option Block)) 2 = none) ∧
    ns_server_handle (fun _ => none) 7 (.keyRequest 1 2 3)
      = .errMsg .NS_ERR_UNKNOWN_ID :=
  ⟨Or.inl rfl,
   ns_server_unknown_id_no_key (fun _ => none) 1 2 3 (Or.inl rfl) 7⟩

/-- C2: the client accepts the session key embedded in a `KEY_RESPONSE`
exactly when the embedded nonce equals the nonce `n1` it sent in its
`KEY_REQUEST`; a response whose embedded nonce differs makes the handshake
fail with error code `UNKNOWN`, and any accepted response (of whatever
payload) necessarily carried `n1` as its first decrypted block. -/
theorem ns_client_nonce_echo_check (client_key n1 n partnerId sk : Block)
    (t : List Block) :
    (ns_client_handle_key_response client_key n1
        (.keyResponse (ns_encrypt_blocks client_key ([n, partnerId, sk] ++ t)))
      = .ok (partnerId, sk, t) ↔ n = n1) ∧
    (n ≠ n1 →
      ns_client_handle_key_response client_key n1
        (.keyResponse (ns_encrypt_blocks client_key ([n, partnerId, sk] ++ t)))
      = .error .NS_ERR_UNKNOWN) ∧
    (∀ (payload : List Block) (p k : Block) (t2 : List Block),
      ns_client_handle_key_response client_key n1 (.keyResponse payload)
        = .ok (p, k, t2) →
      (ns_decrypt_blocks client_key payload).head? = some n1) := by
  have hd : ∀ m : Block, ns_decrypt_blocks client_key
      (ns_encrypt_blocks client_key (m :: partnerId :: sk :: t))
      = m :: partnerId :: sk :: t := fun m =>
    ns_decrypt_blocks_ns_encrypt_blocks client_key (m :: partnerId :: sk :: t)
  refine ⟨?_, ?_, ?_⟩
  · constructor
    · intro h
      by_contra hn
      simp [ns_client_handle_key_response, hd, hn] at h
    · intro hn
      subst hn
      simp [ns_client_handle_key_response, hd]
  · intro hn
    simp [ns_client_handle_key_response, hd, hn]
  · intro payload p k t2 h
    simp only [ns_client_handle_key_response] at h
    rcases hdp : ns_decrypt_blocks client_key payload with _ | ⟨x, xs⟩
    · rw [hdp] at h; simp at h
    · rcases xs with _ | ⟨y, ys⟩
      · rw [hdp] at h; simp at h
      · rcases ys with _ | ⟨z, zs⟩
        · rw [hdp] at h; simp at h
        · rw [hdp] at h
          by_cases hx : x = n1
          · subst hx; simp [hdp]
          · simp [hx] at h

/-- Witness for C2: a concrete response whose embedded nonce 3 differs from
the sent nonce 4 is rejected with `UNKNOWN`. -/
theorem ns_client_nonce_echo_check_witness :
    (3 : Block) ≠ 4 ∧
    ns_client_handle_key_response 9 4
        (.keyResponse (ns_encrypt_blocks 9 ([3, 5, 6] ++ [7, 8])))
      = .error .NS_ERR_UNKNOWN :=
  ⟨by decide, (ns_client_nonce_echo_check 9 4 3 5 6 [7, 8]).2.1 (by decide)⟩

/-- C3: a `COM_RESPONSE` whose decrypted value differs from the issued
challenge nonce decremented by one is answered `REJECTED`, nothing is
delivered to `store_key`, the peer-challenge record of that address is
removed, and an identical `COM_RESPONSE` arriving afterwards from the same
address is unsolicited and answered `UNKNOWN_ID`. -/
theorem ns_daemon_reject_removes_record (ctx : ns_daemon_context_t)
    (src : Addr) (c : Block) (p : ns_daemon_peer_t)
    (hfind : peers_find ctx.peers src = some p)
    (hmis : ns_decrypt ctx.peer_key c ≠ p.nonce - 1) :
    (ns_daemon_handle_com_response ctx src c).2.1
        = .errMsg .NS_ERR_REJECTED ∧
    (ns_daemon_handle_com_response ctx src c).2.2 = none ∧
    peers_find (ns_daemon_handle_com_response ctx src c).1.peers src
        = none ∧
    (ns_daemon_handle_com_response
        (ns_daemon_handle_com_response ctx src c).1 src c).2.1
      = .errMsg .NS_ERR_UNKNOWN_ID := by
  have h1 : ns_daemon_handle_com_response ctx src c
      = ({ ctx with peers := peers_remove ctx.peers src },
         .errMsg .NS_ERR_REJECTED, none) := by
    simp only [ns_daemon_handle_com_response, hfind]
    rw [if_neg hmis]
  have h2 : peers_find (peers_remove ctx.peers src) src = none :=
    peers_find_peers_remove_self ctx.peers src
  refine ⟨by rw [h1], by rw [h1], by rw [h1]; exact h2, ?_⟩
  rw [h1]
  simp only [ns_daemon_handle_com_response, h2]

/-- Witness for C3: a daemon holding one pending challenge (nonce 9, session
key 50) rejects a response decrypting to 3 and then treats its replay as
unsolicited. -/
theorem ns_daemon_reject_removes_record_witness :
    peers_find demo_daemon_ctx.peers 10 = some ⟨10, 9⟩ ∧
    ns_decrypt demo_daemon_ctx.peer_key (ns_encrypt 50 3) ≠ 9 - 1 ∧
    (ns_daemon_handle_com_response demo_daemon_ctx 10 (ns_encrypt 50 3)).2.1
      = .errMsg .NS_ERR_REJECTED :=
  ⟨by decide, by decide,
   (ns_daemon_reject_removes_record demo_daemon_ctx 10 (ns_encrypt 50 3)
      ⟨10, 9⟩ (by decide) (by decide)).1⟩

/-- C6: the block the client sends in its `COM_RESPONSE` decrypts, under the
session key, to the daemon's challenge nonce decremented by one; and the
daemon finalizes (acknowledges `FINISHED` and delivers the pending identity
and session key) exactly when the decrypted response equals the issued nonce
decremented by one. -/
theorem ns_nonce_transform_finalize (session_key n2 : Block)
    (ctx : ns_daemon_context_t) (src : Addr) (c : Block)
    (p : ns_daemon_peer_t) (hfind : peers_find ctx.peers src = some p) :
    (ns_client_handle_com_challenge session_key
        (.comChallenge (ns_encrypt session_key n2))
      = .ok (ns_encrypt session_key (n2 - 1)) ∧
     ns_decrypt session_key (ns_encrypt session_key (n2 - 1)) = n2 - 1) ∧
    (((ns_daemon_handle_com_response ctx src c).2.1 = .finished ∧
      (ns_daemon_handle_com_response ctx src c).2.2
        = some (ctx.peer_identity, ctx.peer_key)) ↔
     ns_decrypt ctx.peer_key c = p.nonce - 1) := by
  refine ⟨⟨?_, ns_decrypt_ns_encrypt session_key (n2 - 1)⟩, ?_⟩
  · simp [ns_client_handle_com_challenge, ns_decrypt_ns_encrypt]
  · by_cases hv : ns_decrypt ctx.peer_key c = p.nonce - 1 <;>
      simp [ns_daemon_handle_com_response, hfind, hv]

/-- Witness for C6: with challenge nonce 9 and session key 50, the client's
response decrypts to 8 and a correct concrete response finalizes the
exchange. -/
theorem ns_nonce_transform_finalize_witness :
    peers_find demo_daemon_ctx.peers 10 = some ⟨10, 9⟩ ∧
    ns_decrypt 50 (ns_encrypt 50 (9 - 1)) = 9 - 1 ∧
    ((ns_daemon_handle_com_response demo_daemon_ctx 10
        (ns_encrypt 50 (9 - 1))).2.1 = .finished ∧
     (ns_daemon_handle_com_response demo_daemon_ctx 10
        (ns_encrypt 50 (9 - 1))).2.2 = some (1, 50)) :=
  ⟨by decide,
   (ns_nonce_transform_finalize 50 9 demo_daemon_ctx 10
      (ns_encrypt 50 (9 - 1)) ⟨10, 9⟩ (by decide)).1.2,
   (ns_nonce_transform_finalize 50 9 demo_daemon_ctx 10
      (ns_encrypt 50 (9 - 1)) ⟨10, 9⟩ (by decide)).2.mpr (by decide)⟩

/-- Every client run invokes the `result` callback on exactly the returned
terminal code, which is either `FINISHED` or one of the three error
codes. -/
theorem ns_get_key_run_terminal (key clientId partnerId n1 : Block)
    (r1 r2 r3 : Msg) :
    (ns_get_key_run key clientId partnerId n1 r1 r2 r3).results
      = [(ns_get_key_run key clientId partnerId n1 r1 r2 r3).ret] ∧
    ((ns_get_key_run key clientId partnerId n1 r1 r2 r3).ret
        = ns_state_code .NS_STATE_FINISHED ∨
     ∃ e : ns_error_t,
       (ns_get_key_run key clientId partnerId n1 r1 r2 r3).ret
         = ns_error_code e) := by
  rcases h1 : ns_client_handle_key_response key n1 r1 with e | ⟨pid, sk, tk⟩
  · exact ⟨by simp [ns_get_key_run, h1],
           Or.inr ⟨e, by simp [ns_get_key_run, h1]⟩⟩
  · rcases h2 : ns_client_handle_com_challenge sk r2 with e | resp
    · exact ⟨by simp [ns_get_key_run, h1, h2],
             Or.inr ⟨e, by simp [ns_get_key_run, h1, h2]⟩⟩
    · rcases h3 : ns_client_handle_final r3 with e | u
      · exact ⟨by simp [ns_get_key_run, h1, h2, h3],
               Or.inr ⟨e, by simp [ns_get_key_run, h1, h2, h3]⟩⟩
      · exact ⟨by simp [ns_get_key_run, h1, h2, h3],
               Or.inl (by simp [ns_get_key_run, h1, h2, h3])⟩

/-- C7: for every client handshake, the `result` callback is invoked exactly
once, at termination, and its argument is the final state code `FINISHED` on
success or one of the error codes `UNKNOWN_ID`, `REJECTED`, `UNKNOWN` on
failure — never zero times and never more than once. -/
theorem ns_client_result_exactly_once (key clientId partnerId n1 : Block)
    (r1 r2 r3 : Msg) :
    (ns_get_key_run key clientId partnerId n1 r1 r2 r3).results
      = [(ns_get_key_run key clientId partnerId n1 r1 r2 r3).ret] ∧
    ((ns_get_key_run key clientId partnerId n1 r1 r2 r3).ret
        = ns_state_code .NS_STATE_FINISHED ∨
     ∃ e : ns_error_t,
       (ns_get_key_run key clientId partnerId n1 r1 r2 r3).ret
         = ns_error_code e) :=
  ns_get_key_run_terminal key clientId partnerId n1 r1 r2 r3

/-- C9: the entry points have the stated shapes — `ns_server` is driven by
its key-lookup handler and port, `ns_daemon` starts from its own long-term
key (and an empty peer table), and `ns_get_key`, given the handler, the
server and partner addresses and ports and the two identities, performs the
handshake synchronously and returns to its caller exactly the terminal code
it reports through the `result` callback. -/
theorem ns_entry_point_shapes :
    (∀ (handler : Block → Option Block) (port : Nat) (sk : Block) (m : Msg),
      ns_server handler port sk m = ns_server_handle handler sk m) ∧
    (∀ (port : Nat) (key : Block),
      (ns_daemon port key).daemon_ns_key = key ∧
      (ns_daemon port key).peers = []) ∧
    (∀ (sa pa : String) (sp cp pp : Nat) (cid pid key n1 : Block)
        (r1 r2 r3 : Msg),
      ns_get_key sa pa sp cp pp cid pid key n1 r1 r2 r3
        = (ns_get_key_run key cid pid n1 r1 r2 r3).ret ∧
      (ns_get_key_run key cid pid n1 r1 r2 r3).results
        = [ns_get_key sa pa sp cp pp cid pid key n1 r1 r2 r3]) := by
  refine ⟨fun _ _ _ _ => rfl, fun _ _ => ⟨rfl, rfl⟩, ?_⟩
  intro sa pa sp cp pp cid pid key n1 r1 r2 r3
  exact ⟨rfl, (ns_get_key_run_terminal key cid pid n1 r1 r2 r3).1⟩

/-- C5 as stated is false on the code: `ns_daemon_peer_t` holds only the
address and the nonce, and the pending session key sits in the single
context field `peer_key`.  Concretely, after a second `COM_REQUEST` from
address 11 the challenge of address 10 is still pending, but the session
key slot now holds the second exchange's key 200 instead of its own key
100, and the correct response to the first challenge, encrypted under its
own session key 100, is rejected. -/
theorem ns_peer_record_keeps_own_key_cex :
    peers_find demo_ctx_after_second_request.peers 10 = some ⟨10, 7⟩ ∧
    demo_ctx_after_first_request.peer_key = 100 ∧
    demo_ctx_after_second_request.peer_key = 200 ∧
    (demo_ctx_after_second_request.peer_key == 100) = false ∧
    (ns_daemon_handle_com_response demo_ctx_after_second_request 10
        (ns_encrypt 100 (7 - 1))).2.1 = .errMsg .NS_ERR_REJECTED := by
  decide

/-- C5 (amended): every peer-challenge record the daemon stores is keyed by
the remote address and holds the challenge nonce issued to that address,
while the pending session key and requester identity are kept in single
context fields shared by all addresses: a `COM_REQUEST` from a second
address leaves the first record pending but overwrites the pending session
key and identity with the second exchange's. -/
theorem ns_peer_record_single_key_slot (ctx : ns_daemon_context_t)
    (a b : Addr) (nA nB k1 i1 k2 i2 : Block) (tA tB : List Block)
    (hA : ns_decrypt_blocks ctx.daemon_ns_key tA = [k1, i1])
    (hB : ns_decrypt_blocks ctx.daemon_ns_key tB = [k2, i2])
    (hab : a ≠ b) :
    ((ns_daemon_handle_com_request ctx a nA tA).1.peer_key = k1 ∧
     (ns_daemon_handle_com_request ctx a nA tA).1.peer_identity = i1 ∧
     peers_find (ns_daemon_handle_com_request ctx a nA tA).1.peers a
       = some ⟨a, nA⟩) ∧
    ((ns_daemon_handle_com_request
        (ns_daemon_handle_com_request ctx a nA tA).1 b nB tB).1.peer_key
       = k2 ∧
     (ns_daemon_handle_com_request
        (ns_daemon_handle_com_request ctx a nA tA).1 b nB tB).1.peer_identity
       = i2 ∧
     peers_find (ns_daemon_handle_com_request
        (ns_daemon_handle_com_request ctx a nA tA).1 b nB tB).1.peers a
       = some ⟨a, nA⟩ ∧
     peers_find (ns_daemon_handle_com_request
        (ns_daemon_handle_com_request ctx a nA tA).1 b nB tB).1.peers b
       = some ⟨b, nB⟩) := by
  have e1 : ns_daemon_handle_com_request ctx a nA tA
      = ({ ctx with peer_key := k1, peer_identity := i1,
                    peers := peers_add ctx.peers ⟨a, nA⟩ },
         .comChallenge (ns_encrypt k1 nA)) := by
    simp [ns_daemon_handle_com_request, hA]
  have e2 : ns_daemon_handle_com_request
      ({ ctx with peer_key := k1, peer_identity := i1,
                  peers := peers_add ctx.peers ⟨a, nA⟩ }) b nB tB
      = ({ ctx with peer_key := k2, peer_identity := i2,
                    peers := peers_add (peers_add ctx.peers ⟨a, nA⟩) ⟨b, nB⟩ },
         .comChallenge (ns_encrypt k2 nB)) := by
    simp [ns_daemon_handle_com_request, hB]
  have f1 : peers_find (peers_add ctx.peers ⟨a, nA⟩) a = some ⟨a, nA⟩ :=
    peers_find_peers_add_self ctx.peers ⟨a, nA⟩
  have f2 : peers_find (peers_add (peers_add ctx.peers ⟨a, nA⟩) ⟨b, nB⟩) b
      = some ⟨b, nB⟩ :=
    peers_find_peers_add_self (peers_add ctx.peers ⟨a, nA⟩) ⟨b, nB⟩
  have f3 : peers_find (peers_add (peers_add ctx.peers ⟨a, nA⟩) ⟨b, nB⟩) a
      = some ⟨a, nA⟩ := by
    have hba : ¬ (b = a) := fun h => hab h.symm
    simp only [peers_add, peers_find]
    rw [peers_find_peers_remove_ne _ _ _ hab]
    simp [hba, peers_find]
  simp [e1, e2, f1, f2, f3]

/-- Witness for the amended C5: concrete tickets under daemon key 5 carrying
(100, 1) and (200, 2), requests from addresses 10 and 11 — the first record
stays, the key slot ends at 200. -/
theorem ns_peer_record_single_key_slot_witness :
    ns_decrypt_blocks (ns_daemon 0 5).daemon_ns_key
        (ns_encrypt_blocks 5 [100, 1]) = [100, 1] ∧
    (10 : Addr) ≠ 11 ∧
    demo_ctx_after_second_request.peer_key = 200 ∧
    peers_find demo_ctx_after_second_request.peers 10 = some ⟨10, 7⟩ :=
  ⟨by decide, by decide,
   (ns_peer_record_single_key_slot (ns_daemon 0 5) 10 11 7 8 100 1 200 2
      (ns_encrypt_blocks 5 [100, 1]) (ns_encrypt_blocks 5 [200, 2])
      (by decide) (by decide) (by decide)).2.1,
   (ns_peer_record_single_key_slot (ns_daemon 0 5) 10 11 7 8 100 1 200 2
      (ns_encrypt_blocks 5 [100, 1]) (ns_encrypt_blocks 5 [200, 2])
      (by decide) (by decide) (by decide)).2.2.2.1⟩

/-- C1: for every pair of identities whose long-term keys are correctly
provisioned at the server, the complete client handshake against a correct
server and daemon terminates with the client reporting `FINISHED` (exactly
once, which is also the return value), the client storing the session key
for the partner identity and the daemon delivering the same session key for
the client identity: both ends hold the identical session key. -/
theorem ns_handshake_finished_shared_key (get_key : Block → Option Block)
    (src : Addr) (port : Nat)
    (clientId partnerId clientKey partnerKey n1 session_key n2 : Block)
    (hc : get_key clientId = some clientKey)
    (hp : get_key partnerId = some partnerKey) :
    full_handshake get_key src port clientId partnerId clientKey partnerKey
        n1 session_key n2
      = ({ results := [ns_state_code .NS_STATE_FINISHED],
            stored := [(partnerId, session_key)],
            ret := ns_state_code .NS_STATE_FINISHED },
         { daemon_ns_key := partnerKey, peer_key := session_key,
            peer_identity := clientId, peers := [] },
         some (clientId, session_key)) := by
  have r1 : ns_server_handle get_key session_key
      (.keyRequest clientId partnerId n1)
      = .keyResponse (ns_encrypt_blocks clientKey
          (n1 :: partnerId :: session_key ::
            ns_encrypt_blocks partnerKey [session_key, clientId])) := by
    simp [ns_server_handle, hc, hp]
  have r2 : ns_client_handle_key_response clientKey n1
      (.keyResponse (ns_encrypt_blocks clientKey
        (n1 :: partnerId :: session_key ::
          ns_encrypt_blocks partnerKey [session_key, clientId])))
      = .ok (partnerId, session_key,
          ns_encrypt_blocks partnerKey [session_key, clientId]) := by
    simp [ns_client_handle_key_response, ns_decrypt_blocks_ns_encrypt_blocks]
  have r3 : ns_daemon_handle_com_request (ns_daemon port partnerKey) src n2
      (ns_encrypt_blocks partnerKey [session_key, clientId])
      = ({ daemon_ns_key := partnerKey, peer_key := session_key,
            peer_identity := clientId, peers := [⟨src, n2⟩] },
         .comChallenge (ns_encrypt session_key n2)) := by
    simp [ns_daemon_handle_com_request, ns_daemon,
      ns_decrypt_blocks_ns_encrypt_blocks, peers_add, peers_remove]
  have r4 : ns_client_handle_com_challenge session_key
      (.comChallenge (ns_encrypt session_key n2))
      = .ok (ns_encrypt session_key (n2 - 1)) := by
    simp [ns_client_handle_com_challenge, ns_decrypt_ns_encrypt]
  have r5 : ns_daemon_handle_com_response
      ({ daemon_ns_key := partnerKey, peer_key := session_key,
          peer_identity := clientId, peers := [⟨src, n2⟩] })
      src (ns_encrypt session_key (n2 - 1))
      = ({ daemon_ns_key := partnerKey, peer_key := session_key,
            peer_identity := clientId, peers := [] },
         .finished, some (clientId, session_key)) := by
    simp [ns_daemon_handle_com_response, peers_find, peers_remove,
      ns_decrypt_ns_encrypt]
  simp [full_handshake, r1, r2, r3, r4, r5, ns_client_handle_final]

/-- Witness for C1: with the concrete key store (identity 1 holds key 11,
identity 2 holds key 12), nonces 3 and 5 and session key 4, the handshake
finishes and both sides hold session key 4. -/
theorem ns_handshake_finished_shared_key_witness :
    demo_key_store 1 = some 11 ∧ demo_key_store 2 = some 12 ∧
    full_handshake demo_key_store 0 0 1 2 11 12 3 4 5
      = ({ results := [6], stored := [(2, 4)], ret := 6 },
         { daemon_ns_key := 12, peer_key := 4, peer_identity := 1,
            peers := [] },
         some (1, 4)) :=
  ⟨by decide, by decide,
   ns_handshake_finished_shared_key demo_key_store 0 0 1 2 11 12 3 4 5
     (by decide) (by decide)⟩

end Needham
